import Mathlib

/-!
Verification of the PDF generator (`pdf_generator.py`) against its
specification.  The program merges CSV rows with HTML templates via
`string.Template.safe_substitute` and emits PDFs through one of two
backends (WeasyPrint or xhtml2pdf).

The shallow embedding below models:
* a CSV row as an association list from column name to cell string
  (`Row`); pandas attribute access (`row.work_name`, `first_row.act_number`)
  becomes `Row.attr`, which raises (returns `.error`) on a missing column;
* Python `float(...)` on a cell as `pyFloat?` (decimal literals with
  optional sign, fraction and exponent; `inf`/`nan`/underscore forms are
  not modelled — no claim depends on them);
* `f"{x:.2f}"` as `formatTwoDec` (round half to even at two decimals over
  exact rationals);
* `string.Template.safe_substitute` as `safe_substitute` (a fuel-indexed
  scanner `safeSubF`, structurally recursive so that it evaluates in the
  kernel; the fuel is always the length of the remaining input);
* the two render strategies, `render_template` dispatch, the PDF emitter
  (`generate_pdf`, with the filesystem as an explicit list of paths),
  the batch loop of `main`, and the `__main__` exit-code guard.

Python `None` returns are `.ok none`; raised exceptions are `.error`;
printed error messages are returned alongside results so that the
distinct failure conditions (NoDataForId, UnknownTemplateType, empty
group) remain observable.
-/

namespace PdfGen

abbrev Exc := String

/-- A CSV/pandas row: column name ↦ cell value (cells kept as strings,
as read from the delimited text file). -/
abbrev Row := List (String × String)

/-- pandas attribute access on a row tuple (`row.work_name`,
`first_row.act_number`); a missing column raises `AttributeError`. -/
def Row.attr (r : Row) (name : String) : Except Exc String :=
  match List.lookup name r with
  | some v => .ok v
  | none => .error ("AttributeError: " ++ name)

/-! ### Python `float()` on decimal literals -/

def digitsToNat (l : List Char) : ℕ :=
  l.foldl (fun a c => 10 * a + (c.toNat - 48)) 0

def pow10 (n : ℕ) : ℚ := (10 : ℚ) ^ n

def pyWs (c : Char) : Bool :=
  c == ' ' || c == '\t' || c == '\n' || c == '\r' || c == '\x0b' || c == '\x0c'

/-- Models Python `float(s)` on decimal literals: optional surrounding
whitespace, optional sign, digits with an optional fractional part and
an optional exponent; anything else fails (`ValueError`). -/
def pyFloat? (s : String) : Option ℚ :=
  let l := ((s.data.dropWhile pyWs).reverse.dropWhile pyWs).reverse
  let sl : ℚ × List Char :=
    match l with
    | '+' :: t => (1, t)
    | '-' :: t => (-1, t)
    | _ => (1, l)
  let ip := sl.2.takeWhile Char.isDigit
  let l2 := sl.2.dropWhile Char.isDigit
  let fl : List Char × List Char :=
    match l2 with
    | '.' :: t => (t.takeWhile Char.isDigit, t.dropWhile Char.isDigit)
    | _ => ([], l2)
  if ip.isEmpty && fl.1.isEmpty then none
  else
    let mant : ℚ := sl.1 * ((digitsToNat ip : ℚ) + (digitsToNat fl.1 : ℚ) / pow10 fl.1.length)
    match fl.2 with
    | [] => some mant
    | e :: t =>
      if e == 'e' || e == 'E' then
        let st : Bool × List Char :=
          match t with
          | '+' :: u => (false, u)
          | '-' :: u => (true, u)
          | _ => (false, t)
        let ed := st.2.takeWhile Char.isDigit
        let t2 := st.2.dropWhile Char.isDigit
        if ed.isEmpty || !t2.isEmpty then none
        else some (if st.1 then mant / pow10 (digitsToNat ed) else mant * pow10 (digitsToNat ed))
      else none

/-! ### `f"{x:.2f}"`: fixed two-decimal formatting of the exact value -/

/-- Floor of a rational, computed with floor division so that it
evaluates in the kernel. -/
def ratFloor (q : ℚ) : ℤ := q.num.fdiv q.den

/-- Round half to even to the nearest integer (the rounding used when
formatting with `%.2f`, applied to the exact value). -/
def rhe (q : ℚ) : ℤ :=
  let f : ℤ := ratFloor q
  if q - (f : ℚ) < 1/2 then f
  else if (1/2 : ℚ) < q - (f : ℚ) then f + 1
  else if f % 2 = 0 then f else f + 1

/-- Models `f"{q:.2f}"`: sign, integer part, and exactly two fractional
digits. -/
def formatTwoDec (q : ℚ) : String :=
  let m : ℕ := (rhe (q * 100)).natAbs
  String.mk ((if q < 0 then ['-'] else []) ++ (Nat.repr (m / 100)).data
    ++ '.' :: [Nat.digitChar (m % 100 / 10), Nat.digitChar (m % 10)])

/-- The string ends in `.dd` (a dot followed by exactly two digits). -/
def hasTwoDecs (s : String) : Bool :=
  match s.data.reverse with
  | d1 :: d2 :: dot :: _ => d1.isDigit && d2.isDigit && (dot == '.')
  | _ => false

/-! ### `string.Template.safe_substitute` -/

def isIdStart (c : Char) : Bool := c.isAlpha || c == '_'

def isIdChar (c : Char) : Bool := c.isAlphanum || c == '_'

/-- Fuel-indexed scanner implementing `Template.safe_substitute` with the
default pattern (`$$` escape, `$identifier`, `${identifier}`): a known key
is replaced by its value, an unknown key leaves the whole placeholder
verbatim, and an invalid pattern leaves the `$` verbatim.  The fuel only
serves structural recursion; it is always at least the length of the
input (see `safeSubF_irrel`). -/
def safeSubF (m : List (String × String)) : ℕ → List Char → List Char
  | 0, l => l
  | _ + 1, [] => []
  | fuel + 1, c :: cs =>
    if c == '$' then
      match cs with
      | [] => ['$']
      | d :: cs1 =>
        if d == '$' then '$' :: safeSubF m fuel cs1
        else if d == '\x7b' then
          match cs1 with
          | [] => '$' :: safeSubF m fuel cs
          | e :: cs2 =>
            if isIdStart e then
              match cs2.dropWhile isIdChar with
              | r0 :: rest =>
                if r0 == '\x7d' then
                  match List.lookup (String.mk (e :: cs2.takeWhile isIdChar)) m with
                  | some v => v.data ++ safeSubF m fuel rest
                  | none =>
                    '$' :: '\x7b' :: (e :: cs2.takeWhile isIdChar) ++ '\x7d' :: safeSubF m fuel rest
                else '$' :: safeSubF m fuel cs
              | [] => '$' :: safeSubF m fuel cs
            else '$' :: safeSubF m fuel cs
        else if isIdStart d then
          match List.lookup (String.mk (d :: cs1.takeWhile isIdChar)) m with
          | some v => v.data ++ safeSubF m fuel (cs1.dropWhile isIdChar)
          | none => '$' :: (d :: cs1.takeWhile isIdChar) ++ safeSubF m fuel (cs1.dropWhile isIdChar)
        else '$' :: safeSubF m fuel cs
    else c :: safeSubF m fuel cs

/-- `Template(template_html).safe_substitute(**mapping)`. -/
def safe_substitute (m : List (String × String)) (s : String) : String :=
  String.mk (safeSubF m s.data.length s.data)

/-! ### Render strategies (lines 135-211) -/

/-- The `try: total = float(row.total); total_amount += total except: total = 0`
step of the loop (lines 149-153): the bare `except` also catches a missing
`total` column, so this never raises. -/
def rowFloatTotal (r : Row) : ℚ :=
  match List.lookup "total" r with
  | none => 0
  | some s => (pyFloat? s).getD 0

/-- The value of `total_amount` after the loop (lines 146-153). -/
def totalAmount (df : List Row) : ℚ := (df.map rowFloatTotal).sum

/-- The f-string appended to `positions_rows` for one row (lines 155-163). -/
def rowFragment (idx : ℕ) (r : Row) : Except Exc String := do
  let wn ← r.attr "work_name"
  let q ← r.attr "quantity"
  let u ← r.attr "unit"
  let up ← r.attr "unit_price"
  let t ← r.attr "total"
  pure ("\n      <tr>\n        <td>" ++ Nat.repr idx ++ "</td>\n        <td>" ++ wn
    ++ "</td>\n        <td>" ++ q ++ "</td>\n        <td>" ++ u
    ++ "</td>\n        <td>" ++ up ++ "</td>\n        <td>" ++ t ++ "</td>\n      </tr>")

def fragsFrom (n : ℕ) : List Row → Except Exc (List String)
  | [] => .ok []
  | r :: rs => do
    let frag ← rowFragment n r
    let rest ← fragsFrom (n + 1) rs
    pure (frag :: rest)

/-- The table-row fragments built by `for idx, row in
enumerate(positions_df.itertuples(), 1)` (lines 148-163);
`positions_rows` is their concatenation.  The same loop accumulates
`total_amount` (see `totalAmount`); that accumulation never raises, so
modelling the two side by side is observationally identical. -/
def positionsFragments (df : List Row) : Except Exc (List String) := fragsFrom 1 df

/-- The keyword arguments passed to `safe_substitute` (lines 167-176),
evaluated in source order. -/
def act_values (first_row : Row) (positions_rows : String) (total_amount : ℚ) :
    Except Exc (List (String × String)) := do
  let an ← first_row.attr "act_number"
  let ad ← first_row.attr "act_date"
  let cn ← first_row.attr "contract_number"
  let oa ← first_row.attr "object_address"
  let cl ← first_row.attr "client"
  let co ← first_row.attr "contractor"
  pure [("act_number", an), ("act_date", ad), ("contract_number", cn),
    ("object_address", oa), ("positions_rows", positions_rows),
    ("total_amount", formatTwoDec total_amount),
    ("client", cl), ("contractor", co)]

/-- `render_act_template` (lines 135-178): `None` with a printed message
on an empty group, the substituted HTML otherwise; missing columns raise. -/
def render_act_template (template_html : String) (positions_df : List Row) :
    Except Exc (Option String) × List String :=
  match positions_df with
  | [] => (.ok none, ["❌ Нет данных для генерации акта"])
  | first_row :: _ =>
    match (do
      let frags ← positionsFragments positions_df
      let vals ← act_values first_row (String.join frags) (totalAmount positions_df)
      pure (safe_substitute vals template_html) : Except Exc String) with
    | .ok html => (.ok (some html), [])
    | .error e => (.error e, [])

/-- `render_certificate_template` (lines 181-189). -/
def render_certificate_template (template_html : String) (data_row : Row) :
    Except Exc String := do
  let sn ← data_row.attr "student_name"
  let cn ← data_row.attr "course_name"
  let cd ← data_row.attr "cert_date"
  pure (safe_substitute [("student_name", sn), ("course_name", cn), ("cert_date", cd)]
    template_html)

/-- `data_df[data_df['id'] == selected_id]` (line 195). -/
def filterId (data_df : List Row) (selected_id : String) : List Row :=
  data_df.filter (fun r => List.lookup "id" r == some selected_id)

/-- `render_template` (lines 192-211): the empty-filter check comes first,
then dispatch on the template base name. -/
def render_template (template_stem template_html : String) (data_df : List Row)
    (selected_id : String) : Except Exc (Option String) × List String :=
  let filtered := filterId data_df selected_id
  if filtered.length = 0 then
    (.ok none, ["❌ Не найдено данных для ID " ++ selected_id])
  else if template_stem = "act" then
    render_act_template template_html filtered
  else if template_stem = "certificate" then
    match filtered with
    | [] => (.error "IndexError", [])
    | first :: _ =>
      match render_certificate_template template_html first with
      | .ok html => (.ok (some html), [])
      | .error e => (.error e, [])
  else
    (.ok none, ["❌ Неизвестный тип шаблона: " ++ template_stem])

/-! ### PDF emitter and controller (lines 214-382) -/

inductive Backend
  | weasyprint
  | xhtml2pdf
  deriving DecidableEq

/-- The output directory contents, as the list of file paths present. -/
structure FS where
  files : List String
  deriving DecidableEq

/-- Creating/overwriting the file at path `p`. -/
def FS.write (fs : FS) (p : String) : FS :=
  if p ∈ fs.files then fs else ⟨fs.files ++ [p]⟩

/-- `generate_pdf(html_content, output_path)` (lines 214-241). `emitOk` is
the oracle for whether the external backend succeeds on this input.  For
WeasyPrint the write is internal to the library — Modelled from the spec:
§4.4 grants the backend an atomic-write guarantee, so the file appears
only on success.  For xhtml2pdf the source itself opens `output_path` for
writing (line 226) before invoking the backend, so the file exists even
when the backend reports an error and `False` is returned. -/
def generate_pdf (emitOk : String → String → Bool) (backend : Backend)
    (html_content output_path : String) (fs : FS) : Bool × FS :=
  match backend with
  | .weasyprint =>
    if emitOk html_content output_path then (true, fs.write output_path) else (false, fs)
  | .xhtml2pdf =>
    let fs1 := fs.write output_path
    if emitOk html_content output_path then (true, fs1) else (false, fs1)

/-- `f"{selected_template.stem}_{selected_csv.stem}_id{selected_id}.pdf"`
(lines 325, 352). -/
def output_filename (template_stem csv_stem selected_id : String) : String :=
  template_stem ++ "_" ++ csv_stem ++ "_id" ++ selected_id ++ ".pdf"

/-- `OUTPUT_DIR / output_filename` (lines 326, 353). -/
def out_path (template_stem csv_stem selected_id : String) : String :=
  "output/" ++ output_filename template_stem csv_stem selected_id

structure BatchState where
  created_files : List String
  errors : List String
  fs : FS
  deriving DecidableEq

/-- One iteration of the batch loop in `main` (lines 343-360): render,
then emit; a `None` render or a failed emission appends `"ID {id}"` to
`errors`; a successful emission appends the filename to `created_files`;
an exception raised by the renderer propagates (the loop has no
`try`/`except`). -/
def processId (emitOk : String → String → Bool) (backend : Backend)
    (template_stem csv_stem template_html : String) (data_df : List Row)
    (selected_id : String) (st : BatchState) : Except Exc BatchState :=
  match (render_template template_stem template_html data_df selected_id).1 with
  | .error e => .error e
  | .ok none => .ok { st with errors := st.errors ++ ["ID " ++ selected_id] }
  | .ok (some html) =>
    let p := out_path template_stem csv_stem selected_id
    let res := generate_pdf emitOk backend html p st.fs
    if res.1 then
      .ok { st with
        created_files := st.created_files ++ [output_filename template_stem csv_stem selected_id],
        fs := res.2 }
    else
      .ok { st with errors := st.errors ++ ["ID " ++ selected_id], fs := res.2 }

/-- The whole batch loop (mode 2, lines 335-371), starting from a given
state; `main` starts it with empty `created_files` and `errors`. -/
def batch (emitOk : String → String → Bool) (backend : Backend)
    (template_stem csv_stem template_html : String) (data_df : List Row) :
    List String → BatchState → Except Exc BatchState
  | [], st => .ok st
  | id :: rest, st =>
    match processId emitOk backend template_stem csv_stem template_html data_df id st with
    | .error e => .error e
    | .ok st1 => batch emitOk backend template_stem csv_stem template_html data_df rest st1

/-- Mode 1 (lines 311-333): render one id and emit; returns whether a PDF
was successfully generated, and the resulting output directory. -/
def single_mode (emitOk : String → String → Bool) (backend : Backend)
    (template_stem csv_stem template_html : String) (data_df : List Row)
    (selected_id : String) (fs : FS) : Except Exc (Bool × FS) :=
  match (render_template template_stem template_html data_df selected_id).1 with
  | .error e => .error e
  | .ok none => .ok (false, fs)
  | .ok (some html) =>
    .ok (generate_pdf emitOk backend html (out_path template_stem csv_stem selected_id) fs)

/-! ### `sorted(data_df['id'].unique())` (line 309) -/

def lexLe : List Char → List Char → Bool
  | [], _ => true
  | _ :: _, [] => false
  | a :: as, b :: bs => if a < b then true else if a == b then lexLe as bs else false

def insertSorted (x : String) : List String → List String
  | [] => [x]
  | y :: ys => if lexLe x.data y.data then x :: y :: ys else y :: insertSorted x ys

def sortStrs : List String → List String
  | [] => []
  | x :: xs => insertSorted x (sortStrs xs)

def col_id : List Row → Except Exc (List String)
  | [] => .ok []
  | r :: rs => do
    let v ← r.attr "id"
    let vs ← col_id rs
    pure (v :: vs)

/-- `sorted(data_df['id'].unique())`: the distinct identifier values,
sorted lexicographically.  `List.dedup` keeps the same set of values as
pandas `unique`, and the subsequent sort makes the result identical. -/
def unique_ids (data_df : List Row) : Except Exc (List String) :=
  match col_id data_df with
  | .ok l => .ok (sortStrs l.dedup)
  | .error e => .error e

/-! ### Exit codes (`__main__` guard, lines 374-382) -/

/-- Outcome of one program run as seen by the `__main__` guard: `main()`
returns normally, `KeyboardInterrupt` is raised (it is caught identically
inside `get_choice`, lines 92-94, also with `sys.exit(0)`), or another
exception reaches the top level. -/
inductive MainResult
  | normal
  | keyboardInterrupt
  | uncaughtError (msg : String)

/-- The process exit code for each outcome: fall-through is success (0),
`KeyboardInterrupt` runs `sys.exit(0)`, any other exception `sys.exit(1)`. -/
def top_level_exit : MainResult → ℕ
  | .normal => 0
  | .keyboardInterrupt => 0
  | .uncaughtError _ => 1

/-! ### Spec-side vocabulary used by the theorems -/

/-- A valid `string.Template` placeholder identifier. -/
def validIdent (name : String) : Bool :=
  match name.data with
  | [] => false
  | c :: cs => isIdStart c && cs.all isIdChar

/-- The row has all five per-item columns read by the loop's f-string. -/
def hasItemFields (r : Row) : Bool :=
  (List.lookup "work_name" r).isSome && (List.lookup "quantity" r).isSome &&
  (List.lookup "unit" r).isSome && (List.lookup "unit_price" r).isSome &&
  (List.lookup "total" r).isSome

/-- The row has all six header columns read from the first row. -/
def hasActHeader (r : Row) : Bool :=
  (List.lookup "act_number" r).isSome && (List.lookup "act_date" r).isSome &&
  (List.lookup "contract_number" r).isSome && (List.lookup "object_address" r).isSome &&
  (List.lookup "client" r).isSome && (List.lookup "contractor" r).isSome

/-- The value of a column of a row (defaulting to `""`; only used under a
presence hypothesis). -/
def cell (r : Row) (name : String) : String := (List.lookup name r).getD ""

/-- The five displayed cells of one item row, in display order: name,
quantity, unit, unit price, line total. -/
def itemCells (r : Row) : List String :=
  [cell r "work_name", cell r "quantity", cell r "unit", cell r "unit_price", cell r "total"]

/-- One rendered item table row, spec side: a `<tr>` whose `<td>` cells
are the 1-based index followed by the given cells. -/
def specRowHtml (idx : ℕ) (cells : List String) : String :=
  "\n      <tr>"
    ++ String.join ((Nat.repr idx :: cells).map (fun c => "\n        <td>" ++ c ++ "</td>"))
    ++ "\n      </tr>"

/-- Classifies one batch iteration for an identifier: `none` = the
renderer raised (the loop aborts), `some false` = the identifier fails
(render returned `None`, or the backend failed), `some true` = a PDF is
produced. -/
def idOutcome (emitOk : String → String → Bool)
    (template_stem csv_stem template_html : String) (data_df : List Row)
    (selected_id : String) : Option Bool :=
  match (render_template template_stem template_html data_df selected_id).1 with
  | .error _ => none
  | .ok none => some false
  | .ok (some html) => some (emitOk html (out_path template_stem csv_stem selected_id))

/-! ### Helper lemmas -/

theorem mkData (s : String) : String.mk s.data = s := by
  cases s
  rfl

theorem strData (a b : String) : (a ++ b).data = a.data ++ b.data := by
  cases a
  cases b
  rfl

theorem lenDropWhileLe (p : Char → Bool) : ∀ l : List Char,
    (l.dropWhile p).length ≤ l.length := by
  intro l
  induction l with
  | nil => simp [List.dropWhile]
  | cons a t ih =>
    simp only [List.dropWhile]
    cases hpa : p a
    · simp
    · simpa using Nat.le_succ_of_le ih

theorem takeWhile_app (p : Char → Bool) : ∀ (l1 l2 : List Char),
    (∀ c ∈ l1, p c = true) → (∀ c, l2.head? = some c → p c = false) →
    (l1 ++ l2).takeWhile p = l1 ∧ (l1 ++ l2).dropWhile p = l2 := by
  intro l1
  induction l1 with
  | nil =>
    intro l2 h1 h2
    cases l2 with
    | nil => simp
    | cons b t =>
      have hb : p b = false := h2 b rfl
      simp [List.takeWhile, List.dropWhile, hb]
  | cons a l1 ih =>
    intro l2 h1 h2
    have ha : p a = true := h1 a (List.mem_cons_self _ _)
    have h := ih l2 (fun c hc => h1 c (List.mem_cons_of_mem _ hc)) h2
    simp [List.takeWhile, List.dropWhile, ha, h.1, h.2]

theorem okBind {α β : Type} (a : α) (f : α → Except Exc β) :
    (Except.ok a >>= f) = f a := rfl

theorem errBind {α β : Type} (e : Exc) (f : α → Except Exc β) :
    ((Except.error e : Except Exc α) >>= f) = .error e := rfl

theorem pureOk {α : Type} (a : α) : (pure a : Except Exc α) = .ok a := rfl

theorem mem_insertSorted (x y : String) (l : List String) :
    y ∈ insertSorted x l ↔ y = x ∨ y ∈ l := by
  induction l with
  | nil => simp [insertSorted]
  | cons a t ih =>
    simp only [insertSorted]
    by_cases h : lexLe x.data a.data
    · simp [h, List.mem_cons]
    · simp [h, List.mem_cons, ih]
      tauto

theorem mem_sortStrs (y : String) (l : List String) : y ∈ sortStrs l ↔ y ∈ l := by
  induction l with
  | nil => simp [sortStrs]
  | cons a t ih => simp [sortStrs, mem_insertSorted, ih, List.mem_cons]

theorem col_id_mem : ∀ (df : List Row) (l : List String), col_id df = .ok l →
    ∀ id ∈ l, ∃ r ∈ df, List.lookup "id" r = some id := by
  intro df
  induction df with
  | nil =>
    intro l h id hid
    simp only [col_id, Except.ok.injEq] at h
    subst h
    simp at hid
  | cons r rs ih =>
    intro l h id hid
    simp only [col_id] at h
    cases hv : Row.attr r "id" with
    | error e => rw [hv, errBind] at h; exact absurd h (by simp)
    | ok v =>
      rw [hv, okBind] at h
      cases hvs : col_id rs with
      | error e => rw [hvs, errBind] at h; exact absurd h (by simp)
      | ok vs =>
        rw [hvs, okBind, pureOk, Except.ok.injEq] at h
        subst h
        rcases List.mem_cons.mp hid with h1 | h2
        · subst h1
          refine ⟨r, List.mem_cons_self _ _, ?_⟩
          unfold Row.attr at hv
          cases hl : List.lookup "id" r with
          | none => rw [hl] at hv; exact absurd hv (by simp)
          | some w => rw [hl] at hv; simp at hv; rw [hv]
        · obtain ⟨r', hr', hl'⟩ := ih vs hvs id h2
          exact ⟨r', List.mem_cons_of_mem _ hr', hl'⟩

theorem safeSubF_irrel (m : List (String × String)) :
    ∀ f g l, l.length ≤ f → l.length ≤ g → safeSubF m f l = safeSubF m g l := by
  intro f
  induction f with
  | zero =>
    intro g l hf _
    have h0 : l = [] := List.length_eq_zero.mp (Nat.le_zero.mp hf)
    subst h0
    cases g
    · rfl
    · rfl
  | succ f ih =>
    intro g l hf hg
    cases l with
    | nil =>
      cases g
      · rfl
      · rfl
    | cons c cs =>
      cases g with
      | zero => simp at hg
      | succ g =>
        have hcs_f : cs.length ≤ f := by simp at hf; omega
        have hcs_g : cs.length ≤ g := by simp at hg; omega
        simp only [safeSubF]
        by_cases hc : (c == '$') = true
        · rw [if_pos hc, if_pos hc]
          cases cs with
          | nil => rfl
          | cons d cs1 =>
            have h1f : cs1.length ≤ f := by simp at hcs_f; omega
            have h1g : cs1.length ≤ g := by simp at hcs_g; omega
            dsimp only
            by_cases hd : (d == '$') = true
            · rw [if_pos hd, if_pos hd, ih g cs1 h1f h1g]
            · rw [if_neg hd, if_neg hd]
              by_cases hb : (d == '\x7b') = true
              · rw [if_pos hb, if_pos hb]
                cases cs1 with
                | nil =>
                  dsimp only
                  rw [ih g (d :: []) hcs_f hcs_g]
                | cons e cs2 =>
                  have h2f : cs2.length ≤ f := by simp at h1f; omega
                  have h2g : cs2.length ≤ g := by simp at h1g; omega
                  dsimp only
                  by_cases he : isIdStart e = true
                  · rw [if_pos he, if_pos he]
                    have hdl : (cs2.dropWhile isIdChar).length ≤ cs2.length :=
                      lenDropWhileLe isIdChar cs2
                    cases hdrop : cs2.dropWhile isIdChar with
                    | nil =>
                      dsimp only
                      rw [ih g (d :: e :: cs2) hcs_f hcs_g]
                    | cons r0 rest =>
                      have hrl : rest.length ≤ cs2.length := by
                        rw [hdrop] at hdl; simp at hdl; omega
                      dsimp only
                      by_cases hr0 : (r0 == '\x7d') = true
                      · rw [if_pos hr0, if_pos hr0]
                        cases hlk : List.lookup (String.mk (e :: cs2.takeWhile isIdChar)) m with
                        | none =>
                          rw [ih g rest (hrl.trans h2f) (hrl.trans h2g)]
                        | some v =>
                          rw [ih g rest (hrl.trans h2f) (hrl.trans h2g)]
                      · rw [if_neg hr0, if_neg hr0,
                          ih g (d :: e :: cs2) hcs_f hcs_g]
                  · rw [if_neg he, if_neg he,
                      ih g (d :: e :: cs2) hcs_f hcs_g]
              · rw [if_neg hb, if_neg hb]
                by_cases hs : isIdStart d = true
                · rw [if_pos hs, if_pos hs]
                  have hdl : (cs1.dropWhile isIdChar).length ≤ cs1.length :=
                    lenDropWhileLe isIdChar cs1
                  cases hlk : List.lookup (String.mk (d :: cs1.takeWhile isIdChar)) m with
                  | none =>
                    rw [ih g (cs1.dropWhile isIdChar) (hdl.trans h1f) (hdl.trans h1g)]
                  | some v =>
                    rw [ih g (cs1.dropWhile isIdChar) (hdl.trans h1f) (hdl.trans h1g)]
                · rw [if_neg hs, if_neg hs,
                    ih g (d :: cs1) hcs_f hcs_g]
        · rw [if_neg hc, if_neg hc, ih g cs hcs_f hcs_g]

theorem strExt (a b : String) (h : a.data = b.data) : a = b := by
  cases a
  cases b
  exact congrArg String.mk h

theorem isIdStart_ne_dollar (c : Char) (h : isIdStart c = true) : (c == '$') = false := by
  cases hb : c == '$'
  · rfl
  · have hc : c = '$' := eq_of_beq hb
    subst hc
    exact absurd h (by decide)

theorem isIdStart_ne_lbrace (c : Char) (h : isIdStart c = true) : (c == '\x7b') = false := by
  cases hb : c == '\x7b'
  · rfl
  · have hc : c = '\x7b' := eq_of_beq hb
    subst hc
    exact absurd h (by decide)

theorem subData (m : List (String × String)) (s : String) :
    (safe_substitute m s).data = safeSubF m s.data.length s.data := rfl

theorem safeSubF_braced (m : List (String × String)) (fuel : ℕ) (c : Char) (cs rest : List Char)
    (hc : isIdStart c = true) (hcs : ∀ x ∈ cs, isIdChar x = true)
    (hlook : List.lookup (String.mk (c :: cs)) m = none) :
    safeSubF m (fuel + 1) ('$' :: '\x7b' :: c :: (cs ++ '\x7d' :: rest))
      = ('$' :: '\x7b' :: c :: cs) ++ '\x7d' :: safeSubF m fuel rest := by
  obtain ⟨htake, hdrop⟩ := takeWhile_app isIdChar cs ('\x7d' :: rest) hcs
    (by intro x hx; simp at hx; subst hx; decide)
  simp only [safeSubF]
  rw [if_pos (by decide : (('$' : Char) == '$') = true)]
  rw [if_neg (by decide : ¬ ((('\x7b' : Char) == '$') = true)),
    if_pos (by decide : (('\x7b' : Char) == '\x7b') = true)]
  rw [if_pos hc, hdrop]
  dsimp only
  rw [if_pos (by decide : (('\x7d' : Char) == '\x7d') = true), htake, hlook]

theorem safeSubF_named (m : List (String × String)) (fuel : ℕ) (c : Char) (cs rest : List Char)
    (hc : isIdStart c = true) (hcs : ∀ x ∈ cs, isIdChar x = true)
    (hrest : ∀ x, rest.head? = some x → isIdChar x = false)
    (hlook : List.lookup (String.mk (c :: cs)) m = none) :
    safeSubF m (fuel + 1) ('$' :: c :: (cs ++ rest))
      = ('$' :: c :: cs) ++ safeSubF m fuel rest := by
  obtain ⟨htake, hdrop⟩ := takeWhile_app isIdChar cs rest hcs hrest
  simp only [safeSubF]
  rw [if_pos (by decide : (('$' : Char) == '$') = true)]
  rw [if_neg (by simp [isIdStart_ne_dollar c hc]),
    if_neg (by simp [isIdStart_ne_lbrace c hc]), if_pos hc, htake, hdrop, hlook]

/-! ### C8: permissive substitution leaves unknown placeholders verbatim -/

/-- C8: for any substitution mapping, a syntactically valid placeholder
whose name is not among the supplied keys is left verbatim in the output
— in both its `${name}` form and its `$name` form (for the latter,
provided the following character does not extend the identifier) — and
scanning continues after it; substitution is total, so a missing key
never aborts the render.  Both render strategies substitute through
`safe_substitute`. -/
theorem safe_substitution_verbatim (m : List (String × String)) (name rest : String)
    (h1 : validIdent name = true) (h2 : List.lookup name m = none)
    (h3 : ∀ x, rest.data.head? = some x → isIdChar x = false) :
    safe_substitute m ("$\x7b" ++ name ++ "\x7d" ++ rest)
        = "$\x7b" ++ name ++ "\x7d" ++ safe_substitute m rest ∧
    safe_substitute m ("$" ++ name ++ rest) = "$" ++ name ++ safe_substitute m rest := by
  unfold validIdent at h1
  cases hnd : name.data with
  | nil => rw [hnd] at h1; exact absurd h1 (by simp)
  | cons c cs =>
    rw [hnd] at h1
    dsimp only at h1
    rw [Bool.and_eq_true] at h1
    have hc : isIdStart c = true := h1.1
    have hcs : ∀ x ∈ cs, isIdChar x = true := by
      intro x hx
      exact List.all_eq_true.mp h1.2 x hx
    have hlookup : List.lookup (String.mk (c :: cs)) m = none := by
      rw [← hnd, mkData]
      exact h2
    have hb1 : ("$\x7b" : String).data = ['$', '\x7b'] := by decide
    have hb2 : ("\x7d" : String).data = ['\x7d'] := by decide
    have hb3 : ("$" : String).data = ['$'] := by decide
    constructor
    · have hLdata : ("$\x7b" ++ name ++ "\x7d" ++ rest).data
          = '$' :: '\x7b' :: c :: (cs ++ '\x7d' :: rest.data) := by
        rw [strData, strData, strData, hnd, hb1, hb2]
        simp
      apply strExt
      rw [subData, hLdata]
      have hlen : ('$' :: '\x7b' :: c :: (cs ++ '\x7d' :: rest.data)).length
          = (cs.length + rest.data.length + 3) + 1 := by
        simp
        omega
      rw [hlen, safeSubF_braced m _ c cs rest.data hc hcs hlookup,
        safeSubF_irrel m (cs.length + rest.data.length + 3) rest.data.length rest.data
          (by omega) (by omega)]
      rw [strData, strData, strData, hnd, subData, hb1, hb2]
      simp
    · have hLdata : ("$" ++ name ++ rest).data = '$' :: c :: (cs ++ rest.data) := by
        rw [strData, strData, hnd, hb3]
        simp
      apply strExt
      rw [subData, hLdata]
      have hlen : ('$' :: c :: (cs ++ rest.data)).length
          = (cs.length + rest.data.length + 1) + 1 := by
        simp
        try omega
      rw [hlen, safeSubF_named m _ c cs rest.data hc hcs h3 hlookup,
        safeSubF_irrel m (cs.length + rest.data.length + 1) rest.data.length rest.data
          (by omega) (by omega)]
      rw [strData, strData, hnd, subData, hb3]
      simp

/-- C8 witness. -/
theorem safe_substitution_verbatim_witness :
    (validIdent "total" = true ∧ List.lookup "total" [("x", "1")] = none ∧
      (∀ x, (" tail" : String).data.head? = some x → isIdChar x = false)) ∧
    (safe_substitute [("x", "1")] ("$\x7b" ++ "total" ++ "\x7d" ++ " tail")
        = "$\x7b" ++ "total" ++ "\x7d" ++ safe_substitute [("x", "1")] " tail" ∧
      safe_substitute [("x", "1")] ("$" ++ "total" ++ " tail")
        = "$" ++ "total" ++ safe_substitute [("x", "1")] " tail") :=
  ⟨⟨by decide, by decide, by
      intro x hx
      rw [(by decide : (" tail" : String).data = [' ', 't', 'a', 'i', 'l'])] at hx
      simp at hx
      subst hx
      decide⟩,
    safe_substitution_verbatim [("x", "1")] "total" " tail" (by decide) (by decide)
      (by
        intro x hx
        rw [(by decide : (" tail" : String).data = [' ', 't', 'a', 'i', 'l'])] at hx
        simp at hx
        subst hx
        decide)⟩

/-! ### C9: exit codes -/

/-- C9 counterexample: the claim asserts the exit codes are distinct by
outcome, but a caught `KeyboardInterrupt` calls `sys.exit(0)` (line 379),
the same exit code as normal completion — not a distinct "user cancelled"
code. -/
theorem exit_codes_cex :
    top_level_exit .keyboardInterrupt = top_level_exit .normal ∧
    top_level_exit .keyboardInterrupt = 0 :=
  ⟨rfl, rfl⟩

/-- C9 (amended): an interrupt is caught and terminates cleanly with exit
code 0 — the same code as normal completion, not a distinct one; uncaught
top-level errors exit with the generic failure code 1, which is distinct
from the other two. -/
theorem exit_codes_amended :
    top_level_exit .keyboardInterrupt = 0 ∧ top_level_exit .normal = 0 ∧
    (∀ e, top_level_exit (.uncaughtError e) = 1) ∧
    (∀ e, top_level_exit (.uncaughtError e) ≠ top_level_exit .keyboardInterrupt) :=
  ⟨rfl, rfl, fun _ => rfl, fun _ => by simp [top_level_exit]⟩

/-! ### C5: the emitter can leave a partial file on backend error -/

/-- C5 (code bug): with the xhtml2pdf backend, `generate_pdf` opens the
destination file for writing before invoking the backend (line 226), so
when the backend reports an error the call returns `False` yet the
(partial) file is left at the destination path — contradicting the
spec's requirement that no partial file remain on backend-reported
error. -/
theorem emit_partial_file_bug :
    generate_pdf (fun _ _ => false) .xhtml2pdf "<h1>x</h1>" "output/act_data_id1.pdf" ⟨[]⟩
      = (false, ⟨["output/act_data_id1.pdf"]⟩) :=
  rfl

/-! ### C6: unknown template names -/

/-- C6 counterexample: the claim says a template with an unknown base
name *always* fails with the UnknownTemplateType condition, but the
empty-filter check runs first (line 197): with base name "invoice" and an
identifier absent from the table, the render fails with the NoDataForId
message instead of the unknown-template one. -/
theorem unknown_template_cex :
    render_template "invoice" "t" [[("id", "1")]] "2"
      = (.ok none, ["❌ Не найдено данных для ID 2"]) ∧
    ("❌ Не найдено данных для ID 2" : String) ≠ "❌ Неизвестный тип шаблона: invoice" :=
  ⟨rfl, by decide⟩

/-- C6 (amended): for a template base name that is neither "act" nor
"certificate", *provided the filtered Record Group is non-empty* (the
no-data check fires first otherwise), rendering fails with the
UnknownTemplateType condition and no PDF output file is produced for
that render, in batch mode (the id is recorded as an error and the
output directory is unchanged) as well as in single mode. -/
theorem unknown_template_amended (stem tmpl : String) (df : List Row) (id : String)
    (h1 : stem ≠ "act") (h2 : stem ≠ "certificate") (h3 : filterId df id ≠ []) :
    render_template stem tmpl df id = (.ok none, ["❌ Неизвестный тип шаблона: " ++ stem]) ∧
    (∀ emitOk backend csv st, processId emitOk backend stem csv tmpl df id st
        = .ok { st with errors := st.errors ++ ["ID " ++ id] }) ∧
    (∀ emitOk backend csv fs, single_mode emitOk backend stem csv tmpl df id fs
        = .ok (false, fs)) := by
  have hr : render_template stem tmpl df id
      = (.ok none, ["❌ Неизвестный тип шаблона: " ++ stem]) := by
    simp only [render_template]
    rw [if_neg (by simpa [List.length_eq_zero] using h3), if_neg h1, if_neg h2]
  refine ⟨hr, ?_, ?_⟩
  · intro emitOk backend csv st
    simp [processId, hr]
  · intro emitOk backend csv fs
    simp [single_mode, hr]

/-- C6 witness. -/
theorem unknown_template_amended_witness :
    (("invoice" : String) ≠ "act" ∧ ("invoice" : String) ≠ "certificate" ∧
      filterId [[("id", "1")]] "1" ≠ []) ∧
    (render_template "invoice" "t" [[("id", "1")]] "1"
        = (.ok none, ["❌ Неизвестный тип шаблона: " ++ "invoice"]) ∧
      (∀ emitOk backend csv st, processId emitOk backend "invoice" csv "t" [[("id", "1")]] "1" st
          = .ok { st with errors := st.errors ++ ["ID " ++ "1"] }) ∧
      (∀ emitOk backend csv fs, single_mode emitOk backend "invoice" csv "t" [[("id", "1")]] "1" fs
          = .ok (false, fs))) :=
  ⟨⟨by decide, by decide, by decide⟩,
    unknown_template_amended "invoice" "t" [[("id", "1")]] "1" (by decide) (by decide) (by decide)⟩

/-! ### C7: absent identifiers -/

/-- C7: filtering by an identifier that matches no row of the Record
Table always fails with the NoDataForId condition (line 197-199),
whatever the template, and no PDF output file is produced for that
render: in batch mode the id is recorded as an error and the output
directory is unchanged, and in single mode the emitter is never
reached. -/
theorem no_data_for_id_fails (stem tmpl : String) (df : List Row) (id : String)
    (h : ∀ r ∈ df, List.lookup "id" r ≠ some id) :
    render_template stem tmpl df id = (.ok none, ["❌ Не найдено данных для ID " ++ id]) ∧
    (∀ emitOk backend csv st, processId emitOk backend stem csv tmpl df id st
        = .ok { st with errors := st.errors ++ ["ID " ++ id] }) ∧
    (∀ emitOk backend csv fs, single_mode emitOk backend stem csv tmpl df id fs
        = .ok (false, fs)) := by
  have hf : filterId df id = [] := by
    apply List.filter_eq_nil_iff.mpr
    intro r hr
    simp [h r hr]
  have hr : render_template stem tmpl df id
      = (.ok none, ["❌ Не найдено данных для ID " ++ id]) := by
    simp [render_template, hf]
  refine ⟨hr, ?_, ?_⟩
  · intro emitOk backend csv st
    simp [processId, hr]
  · intro emitOk backend csv fs
    simp [single_mode, hr]

/-- C7 witness. -/
theorem no_data_for_id_fails_witness :
    (∀ r ∈ [[("id", "1")]], List.lookup "id" r ≠ some "2") ∧
    (render_template "act" "t" [[("id", "1")]] "2"
        = (.ok none, ["❌ Не найдено данных для ID " ++ "2"]) ∧
      (∀ emitOk backend csv st, processId emitOk backend "act" csv "t" [[("id", "1")]] "2" st
          = .ok { st with errors := st.errors ++ ["ID " ++ "2"] }) ∧
      (∀ emitOk backend csv fs, single_mode emitOk backend "act" csv "t" [[("id", "1")]] "2" fs
          = .ok (false, fs))) :=
  ⟨by decide, no_data_for_id_fails "act" "t" [[("id", "1")]] "2" (by decide)⟩

/-! ### C10: ids drawn from the table make the no-data branch unreachable -/

/-- C10: every identifier the controller can pass to the renderer is an
element of `sorted(data_df['id'].unique())` (the single chosen id is
indexed out of that list, batch mode iterates it); any such id matches
at least one row, so the filtered Record Group is non-empty and
`render_template` never takes its "no data for id" branch — it proceeds
directly to the selected strategy. -/
theorem controller_ids_nonempty (df : List Row) (ids : List String) (id : String)
    (h1 : unique_ids df = .ok ids) (h2 : id ∈ ids) :
    filterId df id ≠ [] ∧
    ∀ tmpl, render_template "act" tmpl df id = render_act_template tmpl (filterId df id) := by
  unfold unique_ids at h1
  cases hc : col_id df with
  | error e => rw [hc] at h1; exact absurd h1 (by simp)
  | ok l =>
    rw [hc] at h1
    simp only [Except.ok.injEq] at h1
    subst h1
    have hidl : id ∈ l := List.mem_dedup.mp ((mem_sortStrs _ _).mp h2)
    obtain ⟨r, hr, hlook⟩ := col_id_mem df l hc id hidl
    have hmem : r ∈ filterId df id :=
      List.mem_filter.mpr ⟨hr, by simp [hlook]⟩
    have hne : filterId df id ≠ [] := by
      intro h0
      rw [h0] at hmem
      simp at hmem
    refine ⟨hne, ?_⟩
    intro tmpl
    simp only [render_template]
    rw [if_neg (by simpa [List.length_eq_zero] using hne)]
    simp

/-- C10 witness. -/
theorem controller_ids_nonempty_witness :
    (unique_ids [[("id", "1"), ("total", "20")]] = .ok ["1"] ∧ "1" ∈ ["1"]) ∧
    (filterId [[("id", "1"), ("total", "20")]] "1" ≠ [] ∧
      ∀ tmpl, render_template "act" tmpl [[("id", "1"), ("total", "20")]] "1"
        = render_act_template tmpl (filterId [[("id", "1"), ("total", "20")]] "1")) :=
  ⟨⟨rfl, by decide⟩,
    controller_ids_nonempty [[("id", "1"), ("total", "20")]] ["1"] "1" rfl (by decide)⟩

/-! ### C1 and C2: the aggregate ('act') strategy -/

theorem attr_cell (r : Row) (n : String) (h : (List.lookup n r).isSome = true) :
    r.attr n = .ok (cell r n) := by
  obtain ⟨v, hv⟩ := Option.isSome_iff_exists.mp h
  unfold Row.attr cell
  rw [hv]
  rfl

theorem strAssoc (a b c : String) : a ++ b ++ c = a ++ (b ++ c) := by
  apply strExt
  rw [strData, strData, strData, strData, List.append_assoc]

theorem emptyAppend (s : String) : "" ++ s = s := by
  apply strExt
  rw [strData, (by decide : ("" : String).data = [])]
  simp

theorem rowFragment_ok (idx : ℕ) (r : Row) (h : hasItemFields r = true) :
    rowFragment idx r = .ok (specRowHtml idx (itemCells r)) := by
  unfold hasItemFields at h
  rw [Bool.and_eq_true, Bool.and_eq_true, Bool.and_eq_true, Bool.and_eq_true] at h
  obtain ⟨⟨⟨⟨h1, h2⟩, h3⟩, h4⟩, h5⟩ := h
  unfold rowFragment
  rw [attr_cell r _ h1, okBind, attr_cell r _ h2, okBind, attr_cell r _ h3, okBind,
    attr_cell r _ h4, okBind, attr_cell r _ h5, okBind, pureOk]
  unfold specRowHtml itemCells
  rw [(by decide : ("\n      <tr>\n        <td>" : String) = "\n      <tr>" ++ "\n        <td>"),
    (by decide : ("</td>\n        <td>" : String) = "</td>" ++ "\n        <td>"),
    (by decide : ("</td>\n      </tr>" : String) = "</td>" ++ "\n      </tr>")]
  simp only [List.map_cons, List.map_nil, String.join, List.foldl]
  rw [emptyAppend]
  congr 1
  apply strExt
  simp [strData, List.append_assoc]

theorem fragsFrom_ok : ∀ (df : List Row) (n : ℕ), (∀ r ∈ df, hasItemFields r = true) →
    ∃ frags, fragsFrom n df = .ok frags ∧ frags.length = df.length ∧
      ∀ i r, df.get? i = some r → frags.get? i = some (specRowHtml (n + i) (itemCells r)) := by
  intro df
  induction df with
  | nil =>
    intro n _
    exact ⟨[], rfl, rfl, by intro i r hir; simp at hir⟩
  | cons r0 rs ih =>
    intro n h
    obtain ⟨frags, hf, hlen, hget⟩ := ih (n + 1) (fun r hr => h r (List.mem_cons_of_mem _ hr))
    refine ⟨specRowHtml n (itemCells r0) :: frags, ?_, by simp [hlen], ?_⟩
    · unfold fragsFrom
      rw [rowFragment_ok n r0 (h r0 (List.mem_cons_self _ _)), okBind, hf, okBind, pureOk]
    · intro i r hir
      cases i with
      | zero =>
        simp only [List.get?] at hir ⊢
        rw [Option.some.injEq] at hir
        subst hir
        simp
      | succ i =>
        simp only [List.get?] at hir ⊢
        have hi := hget i r hir
        have h2 : n + 1 + i = n + (i + 1) := by omega
        rw [h2] at hi
        exact hi

theorem rowFloatTotal_eq (r : Row) :
    rowFloatTotal r = ((List.lookup "total" r).bind pyFloat?).getD 0 := by
  unfold rowFloatTotal
  cases List.lookup "total" r
  · rfl
  · rfl

theorem totalAmount_eq (df : List Row) :
    totalAmount df = (df.map (fun r => ((List.lookup "total" r).bind pyFloat?).getD 0)).sum := by
  unfold totalAmount
  congr 1
  congr 1
  funext r
  exact rowFloatTotal_eq r

theorem digitChar_isDigit (k : ℕ) (h : k < 10) : (Nat.digitChar k).isDigit = true := by
  have hall : ∀ j < 10, (Nat.digitChar j).isDigit = true := by decide
  exact hall k h

theorem hasTwoDecs_formatTwoDec (q : ℚ) : hasTwoDecs (formatTwoDec q) = true := by
  unfold formatTwoDec hasTwoDecs
  have hrev : ((if q < 0 then ['-'] else []) ++ (Nat.repr ((rhe (q * 100)).natAbs / 100)).data
      ++ '.' :: [Nat.digitChar ((rhe (q * 100)).natAbs % 100 / 10),
        Nat.digitChar ((rhe (q * 100)).natAbs % 10)]).reverse
      = Nat.digitChar ((rhe (q * 100)).natAbs % 10)
        :: Nat.digitChar ((rhe (q * 100)).natAbs % 100 / 10) :: '.'
        :: ((Nat.repr ((rhe (q * 100)).natAbs / 100)).data.reverse
          ++ (if q < 0 then ['-'] else []).reverse) := by
    simp
  rw [hrev]
  dsimp only
  have hd : (rhe (q * 100)).natAbs % 100 / 10 < 10 := Nat.div_lt_of_lt_mul (by omega)
  rw [digitChar_isDigit _ (Nat.mod_lt _ (by omega)), digitChar_isDigit _ hd]
  decide

theorem act_values_ok (r : Row) (rows : String) (t : ℚ) (h : hasActHeader r = true) :
    act_values r rows t = .ok [("act_number", cell r "act_number"), ("act_date", cell r "act_date"),
      ("contract_number", cell r "contract_number"), ("object_address", cell r "object_address"),
      ("positions_rows", rows), ("total_amount", formatTwoDec t),
      ("client", cell r "client"), ("contractor", cell r "contractor")] := by
  unfold hasActHeader at h
  rw [Bool.and_eq_true, Bool.and_eq_true, Bool.and_eq_true, Bool.and_eq_true,
    Bool.and_eq_true] at h
  obtain ⟨⟨⟨⟨⟨h1, h2⟩, h3⟩, h4⟩, h5⟩, h6⟩ := h
  unfold act_values
  rw [attr_cell r _ h1, okBind, attr_cell r _ h2, okBind, attr_cell r _ h3, okBind,
    attr_cell r _ h4, okBind, attr_cell r _ h5, okBind, attr_cell r _ h6, okBind, pureOk]
/-- C2: for a Record Group with N rows whose rows carry the five item
columns, the aggregate strategy's item-table fragment consists of exactly
N table rows, in the group's original row order, the i-th (0-based)
numbered i+1, each showing that row's name, quantity, unit, unit price
and line total in its cells. -/
theorem act_rows_numbered (df : List Row) (h : ∀ r ∈ df, hasItemFields r = true) :
    ∃ frags, positionsFragments df = .ok frags ∧ frags.length = df.length ∧
      ∀ i r, df.get? i = some r → frags.get? i = some (specRowHtml (i + 1) (itemCells r)) := by
  obtain ⟨frags, hf, hlen, hget⟩ := fragsFrom_ok df 1 h
  refine ⟨frags, hf, hlen, ?_⟩
  intro i r hir
  have hi := hget i r hir
  rwa [Nat.add_comm 1 i] at hi

/-- C1: for a non-empty Record Group whose rows carry the item columns
and whose first row carries the header columns, the aggregate strategy
renders successfully (unparsable totals do not abort it), and the value
it substitutes for `total_amount` is the sum over the group's rows of
the `total` field parsed as a number — an unparsable or missing total
contributing 0 — formatted by `formatTwoDec`, whose output always has
exactly two decimal places. -/
theorem act_grand_total_correct (tmpl : String) (first : Row) (rest : List Row)
    (hh : hasActHeader first = true) (hi : ∀ r ∈ first :: rest, hasItemFields r = true) :
    ∃ vals, render_act_template tmpl (first :: rest)
        = (.ok (some (safe_substitute vals tmpl)), []) ∧
      List.lookup "total_amount" vals
        = some (formatTwoDec (((first :: rest).map
            (fun r => ((List.lookup "total" r).bind pyFloat?).getD 0)).sum)) ∧
      hasTwoDecs (formatTwoDec (((first :: rest).map
          (fun r => ((List.lookup "total" r).bind pyFloat?).getD 0)).sum)) = true := by
  obtain ⟨frags, hf, _, _⟩ := fragsFrom_ok (first :: rest) 1 hi
  refine ⟨[("act_number", cell first "act_number"), ("act_date", cell first "act_date"),
    ("contract_number", cell first "contract_number"),
    ("object_address", cell first "object_address"),
    ("positions_rows", String.join frags),
    ("total_amount", formatTwoDec (totalAmount (first :: rest))),
    ("client", cell first "client"), ("contractor", cell first "contractor")], ?_, ?_, ?_⟩
  · unfold render_act_template
    dsimp only
    rw [(show positionsFragments (first :: rest) = .ok frags from hf), okBind,
      act_values_ok first (String.join frags) (totalAmount (first :: rest)) hh, okBind, pureOk]
  · rw [← totalAmount_eq]
    rfl
  · rw [← totalAmount_eq]
    exact hasTwoDecs_formatTwoDec _
/-- C2 witness (the two-row example of spec section 8). -/
theorem act_rows_numbered_witness :
    (∀ r ∈ ([("id", "1"), ("act_number", "7"), ("act_date", "2024-01-01"),
      ("contract_number", "c1"), ("object_address", "addr"), ("client", "K"),
      ("contractor", "P"), ("work_name", "Paint wall"), ("quantity", "2"), ("unit", "m2"),
      ("unit_price", "10"), ("total", "20")] :: [[("id", "1"), ("work_name", "Seal"), ("quantity", "1"), ("unit", "pc"),
      ("unit_price", "5"), ("total", "5")]] : List Row), hasItemFields r = true) ∧
    (∃ frags, positionsFragments ([("id", "1"), ("act_number", "7"), ("act_date", "2024-01-01"),
      ("contract_number", "c1"), ("object_address", "addr"), ("client", "K"),
      ("contractor", "P"), ("work_name", "Paint wall"), ("quantity", "2"), ("unit", "m2"),
      ("unit_price", "10"), ("total", "20")] :: [[("id", "1"), ("work_name", "Seal"), ("quantity", "1"), ("unit", "pc"),
      ("unit_price", "5"), ("total", "5")]] : List Row) = .ok frags ∧
      frags.length = (([("id", "1"), ("act_number", "7"), ("act_date", "2024-01-01"),
      ("contract_number", "c1"), ("object_address", "addr"), ("client", "K"),
      ("contractor", "P"), ("work_name", "Paint wall"), ("quantity", "2"), ("unit", "m2"),
      ("unit_price", "10"), ("total", "20")] :: [[("id", "1"), ("work_name", "Seal"), ("quantity", "1"), ("unit", "pc"),
      ("unit_price", "5"), ("total", "5")]] : List Row)).length ∧
      ∀ i r, (([("id", "1"), ("act_number", "7"), ("act_date", "2024-01-01"),
      ("contract_number", "c1"), ("object_address", "addr"), ("client", "K"),
      ("contractor", "P"), ("work_name", "Paint wall"), ("quantity", "2"), ("unit", "m2"),
      ("unit_price", "10"), ("total", "20")] :: [[("id", "1"), ("work_name", "Seal"), ("quantity", "1"), ("unit", "pc"),
      ("unit_price", "5"), ("total", "5")]] : List Row)).get? i = some r →
        frags.get? i = some (specRowHtml (i + 1) (itemCells r))) :=
  ⟨by decide, act_rows_numbered ([("id", "1"), ("act_number", "7"), ("act_date", "2024-01-01"),
      ("contract_number", "c1"), ("object_address", "addr"), ("client", "K"),
      ("contractor", "P"), ("work_name", "Paint wall"), ("quantity", "2"), ("unit", "m2"),
      ("unit_price", "10"), ("total", "20")] :: [[("id", "1"), ("work_name", "Seal"), ("quantity", "1"), ("unit", "pc"),
      ("unit_price", "5"), ("total", "5")]] : List Row) (by decide)⟩

/-- C1 witness (the two-row example of spec section 8: totals 20 and 5). -/
theorem act_grand_total_correct_witness :
    (hasActHeader [("id", "1"), ("act_number", "7"), ("act_date", "2024-01-01"),
      ("contract_number", "c1"), ("object_address", "addr"), ("client", "K"),
      ("contractor", "P"), ("work_name", "Paint wall"), ("quantity", "2"), ("unit", "m2"),
      ("unit_price", "10"), ("total", "20")] = true ∧
      ∀ r ∈ ([("id", "1"), ("act_number", "7"), ("act_date", "2024-01-01"),
      ("contract_number", "c1"), ("object_address", "addr"), ("client", "K"),
      ("contractor", "P"), ("work_name", "Paint wall"), ("quantity", "2"), ("unit", "m2"),
      ("unit_price", "10"), ("total", "20")] :: [[("id", "1"), ("work_name", "Seal"), ("quantity", "1"), ("unit", "pc"),
      ("unit_price", "5"), ("total", "5")]] : List Row), hasItemFields r = true) ∧
    (∃ vals, render_act_template "$total_amount" ([("id", "1"), ("act_number", "7"), ("act_date", "2024-01-01"),
      ("contract_number", "c1"), ("object_address", "addr"), ("client", "K"),
      ("contractor", "P"), ("work_name", "Paint wall"), ("quantity", "2"), ("unit", "m2"),
      ("unit_price", "10"), ("total", "20")] :: [[("id", "1"), ("work_name", "Seal"), ("quantity", "1"), ("unit", "pc"),
      ("unit_price", "5"), ("total", "5")]] : List Row)
        = (.ok (some (safe_substitute vals "$total_amount")), []) ∧
      List.lookup "total_amount" vals
        = some (formatTwoDec (((([("id", "1"), ("act_number", "7"), ("act_date", "2024-01-01"),
      ("contract_number", "c1"), ("object_address", "addr"), ("client", "K"),
      ("contractor", "P"), ("work_name", "Paint wall"), ("quantity", "2"), ("unit", "m2"),
      ("unit_price", "10"), ("total", "20")] :: [[("id", "1"), ("work_name", "Seal"), ("quantity", "1"), ("unit", "pc"),
      ("unit_price", "5"), ("total", "5")]] : List Row)).map
            (fun r => ((List.lookup "total" r).bind pyFloat?).getD 0)).sum)) ∧
      hasTwoDecs (formatTwoDec (((([("id", "1"), ("act_number", "7"), ("act_date", "2024-01-01"),
      ("contract_number", "c1"), ("object_address", "addr"), ("client", "K"),
      ("contractor", "P"), ("work_name", "Paint wall"), ("quantity", "2"), ("unit", "m2"),
      ("unit_price", "10"), ("total", "20")] :: [[("id", "1"), ("work_name", "Seal"), ("quantity", "1"), ("unit", "pc"),
      ("unit_price", "5"), ("total", "5")]] : List Row)).map
          (fun r => ((List.lookup "total" r).bind pyFloat?).getD 0)).sum)) = true) :=
  ⟨⟨by decide, by decide⟩,
    act_grand_total_correct "$total_amount" [("id", "1"), ("act_number", "7"), ("act_date", "2024-01-01"),
      ("contract_number", "c1"), ("object_address", "addr"), ("client", "K"),
      ("contractor", "P"), ("work_name", "Paint wall"), ("quantity", "2"), ("unit", "m2"),
      ("unit_price", "10"), ("total", "20")]
      [[("id", "1"), ("work_name", "Seal"), ("quantity", "1"), ("unit", "pc"),
      ("unit_price", "5"), ("total", "5")]] (by decide) (by decide)⟩

/-! ### C3 and C4: the batch loop -/

theorem foldl_write_fresh : ∀ (ps : List String) (fs : FS), ps.Nodup →
    (∀ p ∈ ps, p ∉ fs.files) → List.foldl FS.write fs ps = ⟨fs.files ++ ps⟩ := by
  intro ps
  induction ps with
  | nil =>
    intro fs _ _
    cases fs
    simp
  | cons p ps ih =>
    intro fs hnd hfresh
    obtain ⟨hp, hnd'⟩ := List.nodup_cons.mp hnd
    simp only [List.foldl]
    rw [show FS.write fs p = ⟨fs.files ++ [p]⟩ from by
      unfold FS.write
      rw [if_neg (hfresh p (List.mem_cons_self _ _))]]
    rw [ih ⟨fs.files ++ [p]⟩ hnd' ?_]
    · simp
    · intro q hq
      simp only [List.mem_append, List.mem_singleton]
      rintro (hq1 | hq2)
      · exact hfresh q (List.mem_cons_of_mem _ hq) hq1
      · exact hp (hq2 ▸ hq)

theorem out_path_inj (stem csv : String) : ∀ a b : String,
    out_path stem csv a = out_path stem csv b → a = b := by
  intro a b h
  have hd := congrArg String.data h
  unfold out_path output_filename at hd
  simp only [strData, List.append_assoc] at hd
  replace hd := List.append_cancel_left hd
  replace hd := List.append_cancel_left hd
  replace hd := List.append_cancel_left hd
  replace hd := List.append_cancel_left hd
  replace hd := List.append_cancel_left hd
  exact strExt a b (List.append_cancel_right hd)

/-- Full characterization of the batch loop over an atomic (WeasyPrint)
backend, for a run in which no identifier raises: each identifier is
processed exactly once in order, a failing identifier is recorded in
`errors` and does not stop the loop, a succeeding one appends its
filename and writes its output path. -/
theorem batch_wp_char (emitOk : String → String → Bool) (stem csv tmpl : String)
    (df : List Row) : ∀ (ids : List String) (st0 : BatchState),
    (∀ id ∈ ids, idOutcome emitOk stem csv tmpl df id ≠ none) →
    batch emitOk .weasyprint stem csv tmpl df ids st0 = .ok {
      created_files := st0.created_files
        ++ (ids.filter (fun id => idOutcome emitOk stem csv tmpl df id == some true)).map
            (output_filename stem csv),
      errors := st0.errors
        ++ (ids.filter (fun id => idOutcome emitOk stem csv tmpl df id == some false)).map
            (fun id => "ID " ++ id),
      fs := List.foldl FS.write st0.fs
        ((ids.filter (fun id => idOutcome emitOk stem csv tmpl df id == some true)).map
          (out_path stem csv)) } := by
  intro ids
  induction ids with
  | nil =>
    intro st0 _
    simp [batch]
  | cons id rest ih =>
    intro st0 hexc
    have hid := hexc id (List.mem_cons_self _ _)
    have hrest : ∀ i ∈ rest, idOutcome emitOk stem csv tmpl df i ≠ none :=
      fun i hi => hexc i (List.mem_cons_of_mem _ hi)
    simp only [batch]
    cases hro : (render_template stem tmpl df id).1 with
    | error e =>
      exfalso
      apply hid
      simp [idOutcome, hro]
    | ok o =>
      cases o with
      | none =>
        have hoc : idOutcome emitOk stem csv tmpl df id = some false := by
          simp [idOutcome, hro]
        rw [show processId emitOk .weasyprint stem csv tmpl df id st0
            = .ok { st0 with errors := st0.errors ++ ["ID " ++ id] } from by
          simp [processId, hro]]
        dsimp only
        rw [ih _ hrest]
        simp [List.filter, hoc]
      | some html =>
        cases hek : emitOk html (out_path stem csv id) with
        | false =>
          have hoc : idOutcome emitOk stem csv tmpl df id = some false := by
            simp [idOutcome, hro, hek]
          rw [show processId emitOk .weasyprint stem csv tmpl df id st0
              = .ok { st0 with errors := st0.errors ++ ["ID " ++ id] } from by
            simp [processId, hro, generate_pdf, hek]]
          dsimp only
          rw [ih _ hrest]
          simp [List.filter, hoc]
        | true =>
          have hoc : idOutcome emitOk stem csv tmpl df id = some true := by
            simp [idOutcome, hro, hek]
          rw [show processId emitOk .weasyprint stem csv tmpl df id st0
              = .ok { st0 with
                created_files := st0.created_files ++ [output_filename stem csv id],
                fs := FS.write st0.fs (out_path stem csv id) } from by
            simp [processId, hro, generate_pdf, hek]]
          dsimp only
          rw [ih _ hrest]
          simp [List.filter, hoc]
theorem outcome_partition (emitOk : String → String → Bool) (stem csv tmpl : String)
    (df : List Row) : ∀ ids : List String,
    (∀ id ∈ ids, idOutcome emitOk stem csv tmpl df id ≠ none) →
    (ids.filter (fun id => idOutcome emitOk stem csv tmpl df id == some true)).length
      + (ids.filter (fun id => idOutcome emitOk stem csv tmpl df id == some false)).length
      = ids.length := by
  intro ids
  induction ids with
  | nil => intro _; rfl
  | cons id rest ih =>
    intro h
    have hid := h id (List.mem_cons_self _ _)
    have hrest : ∀ i ∈ rest, idOutcome emitOk stem csv tmpl df i ≠ none :=
      fun i hi => h i (List.mem_cons_of_mem _ hi)
    cases hoc : idOutcome emitOk stem csv tmpl df id with
    | none => exact absurd hoc hid
    | some b =>
      have hih := ih hrest
      cases b
      · simp only [List.filter, hoc]
        simp only [List.length_cons]
        simp
        omega
      · simp only [List.filter, hoc]
        simp only [List.length_cons]
        simp
        omega

/-- C3 (amended): in batch mode over K distinct identifiers starting
from a fresh output state, if no identifier raises an exception and M
identifiers fail (render returns `None` or the backend reports failure),
every identifier is still processed, the final summary reports exactly
K − M successes and M failures, and — *with an atomic backend*
(WeasyPrint; spec 4.4's atomic-write guarantee) — exactly K − M output
files are produced; under the xhtml2pdf backend a failed emission
additionally leaves a partial file (see the counterexample and C5). -/
theorem batch_counts_files (emitOk : String → String → Bool) (stem csv tmpl : String)
    (df : List Row) (ids : List String) (fs0 : FS)
    (hexc : ∀ id ∈ ids, idOutcome emitOk stem csv tmpl df id ≠ none)
    (hnodup : ids.Nodup)
    (hfresh : ∀ id ∈ ids, out_path stem csv id ∉ fs0.files) :
    ∃ st, batch emitOk .weasyprint stem csv tmpl df ids ⟨[], [], fs0⟩ = .ok st ∧
      st.errors.length
        = (ids.filter (fun id => idOutcome emitOk stem csv tmpl df id == some false)).length ∧
      st.created_files.length + st.errors.length = ids.length ∧
      st.fs.files.length = fs0.files.length + (ids.length
        - (ids.filter (fun id => idOutcome emitOk stem csv tmpl df id == some false)).length) := by
  have hp := outcome_partition emitOk stem csv tmpl df ids hexc
  refine ⟨_, batch_wp_char emitOk stem csv tmpl df ids ⟨[], [], fs0⟩ hexc, ?_, ?_, ?_⟩
  · simp
  · simp
    omega
  · dsimp only
    rw [foldl_write_fresh _ fs0
      (List.Nodup.map (fun _ _ h => out_path_inj stem csv _ _ h) (hnodup.filter _)) ?_]
    · simp
      omega
    · intro p hpm
      obtain ⟨i, hi, hpi⟩ := List.mem_map.mp hpm
      rw [← hpi]
      exact hfresh i (List.mem_of_mem_filter hi)
/-- C3 counterexample: with the xhtml2pdf backend, K = 1 distinct
identifier and M = 1 failure (the backend errors), the summary correctly
reports 0 successes and 1 failure, but the run leaves 1 file at the
output path (the destination is opened for writing before the backend
runs) — not K − M = 0 output files as the claim requires. -/
theorem batch_files_cex :
    batch (fun _ _ => false) .xhtml2pdf "certificate" "d" "x"
      [[("id", "1"), ("student_name", "A"), ("course_name", "B"), ("cert_date", "C")]]
      ["1"] ⟨[], [], ⟨[]⟩⟩
    = .ok ⟨[], ["ID 1"], ⟨["output/certificate_d_id1.pdf"]⟩⟩ := rfl

/-- C3 witness: two identifiers, the backend succeeding only on the
first: 1 success, 1 failure, 1 new file. -/
theorem batch_counts_files_witness :
    ((∀ id ∈ (["1", "2"] : List String),
        idOutcome (fun _ p => p == "output/certificate_d_id1.pdf") "certificate" "d" "x"
          [[("id", "1"), ("student_name", "A"), ("course_name", "B"), ("cert_date", "C")],
            [("id", "2"), ("student_name", "D"), ("course_name", "E"), ("cert_date", "F")]]
          id ≠ none) ∧
      (["1", "2"] : List String).Nodup ∧
      (∀ id ∈ (["1", "2"] : List String),
        out_path "certificate" "d" id ∉ (FS.mk []).files)) ∧
    (∃ st, batch (fun _ p => p == "output/certificate_d_id1.pdf") .weasyprint "certificate" "d" "x"
        [[("id", "1"), ("student_name", "A"), ("course_name", "B"), ("cert_date", "C")],
          [("id", "2"), ("student_name", "D"), ("course_name", "E"), ("cert_date", "F")]]
        ["1", "2"] ⟨[], [], ⟨[]⟩⟩ = .ok st ∧
      st.errors.length = ((["1", "2"] : List String).filter (fun id =>
        idOutcome (fun _ p => p == "output/certificate_d_id1.pdf") "certificate" "d" "x"
          [[("id", "1"), ("student_name", "A"), ("course_name", "B"), ("cert_date", "C")],
            [("id", "2"), ("student_name", "D"), ("course_name", "E"), ("cert_date", "F")]]
          id == some false)).length ∧
      st.created_files.length + st.errors.length = (["1", "2"] : List String).length ∧
      st.fs.files.length = (FS.mk []).files.length + ((["1", "2"] : List String).length
        - ((["1", "2"] : List String).filter (fun id =>
          idOutcome (fun _ p => p == "output/certificate_d_id1.pdf") "certificate" "d" "x"
            [[("id", "1"), ("student_name", "A"), ("course_name", "B"), ("cert_date", "C")],
              [("id", "2"), ("student_name", "D"), ("course_name", "E"), ("cert_date", "F")]]
            id == some false)).length)) :=
  ⟨⟨by decide, by decide, by decide⟩,
    batch_counts_files (fun _ p => p == "output/certificate_d_id1.pdf") "certificate" "d" "x"
      [[("id", "1"), ("student_name", "A"), ("course_name", "B"), ("cert_date", "C")],
        [("id", "2"), ("student_name", "D"), ("course_name", "E"), ("cert_date", "F")]]
      ["1", "2"] ⟨[]⟩ (by decide) (by decide) (by decide)⟩

/-- C4 counterexample: an act-template batch over two groups whose rows
lack the required `work_name` column aborts the whole run with an
uncaught `AttributeError` at the first group — the second group is never
processed and nothing is recorded, contradicting "the render fails for
that group only (other groups in the same run are unaffected)". -/
theorem group_isolation_cex :
    batch (fun _ _ => true) .weasyprint "act" "d" "$x"
      [[("id", "1"), ("total", "20")], [("id", "2"), ("total", "5")]] ["1", "2"] ⟨[], [], ⟨[]⟩⟩
      = .error "AttributeError: work_name" := rfl

/-- C4 (amended): an empty Record Group is rejected by the renderer
itself with a per-group failure (so every group actually rendered has at
least one row), and failures the renderer reports by returning `None`
(empty group, unknown template, no data) fail that group only — the
batch step records the id and continues with everything else unchanged;
but a missing required placeholder field is *not* confined to the group:
it raises an uncaught exception that propagates out of the batch step
and aborts the entire run. -/
theorem group_isolation_amended (emitOk : String → String → Bool) (backend : Backend)
    (stem csv tmpl : String) (df : List Row) (id : String) (st : BatchState) :
    (render_act_template tmpl [] = (.ok none, ["❌ Нет данных для генерации акта"])) ∧
    ((render_template stem tmpl df id).1 = .ok none →
      processId emitOk backend stem csv tmpl df id st
        = .ok { st with errors := st.errors ++ ["ID " ++ id] }) ∧
    (∀ e, (render_template stem tmpl df id).1 = .error e →
      processId emitOk backend stem csv tmpl df id st = .error e) := by
  refine ⟨rfl, ?_, ?_⟩
  · intro h
    simp [processId, h]
  · intro e h
    simp [processId, h]

/-- C4 witness: a missing `work_name` aborts the batch step with the
exception; a `None` render is recorded and the step completes. -/
theorem group_isolation_amended_witness :
    ((render_template "act" "$x" [[("id", "1"), ("total", "20")]] "1").1
        = .error "AttributeError: work_name" ∧
      processId (fun _ _ => true) .weasyprint "act" "d" "$x" [[("id", "1"), ("total", "20")]] "1"
          ⟨[], [], ⟨[]⟩⟩ = .error "AttributeError: work_name") ∧
    ((render_template "invoice" "t" [[("id", "1")]] "9").1 = .ok none ∧
      processId (fun _ _ => true) .weasyprint "invoice" "d" "t" [[("id", "1")]] "9" ⟨[], [], ⟨[]⟩⟩
        = .ok ⟨[], ["ID 9"], ⟨[]⟩⟩) :=
  ⟨⟨rfl, (group_isolation_amended (fun _ _ => true) .weasyprint "act" "d" "$x"
      [[("id", "1"), ("total", "20")]] "1" ⟨[], [], ⟨[]⟩⟩).2.2 "AttributeError: work_name" rfl⟩,
    ⟨rfl, (group_isolation_amended (fun _ _ => true) .weasyprint "invoice" "d" "t"
      [[("id", "1")]] "9" ⟨[], [], ⟨[]⟩⟩).2.1 rfl⟩⟩

end PdfGen
